import Mathlib

/-!
Verification development for `scripts/build_dashboard.py`, a static dashboard
generator that scrapes per-repository HTML update fragments with regular
expressions, aggregates them, and renders pages by placeholder substitution.

Strings are embedded as `List Char`; every Python string operation used by the
script (strip, replace, regex scans of the fixed patterns in the source) is
reimplemented here as an executable Lean function with the same semantics.
Python `datetime` values are embedded as a record of calendar fields plus an
optional UTC-offset, with `datetime.fromisoformat` modelled on the grammar
subset the tool exercises and the naive/aware comparison rules (including the
`TypeError` on mixed comparisons) made explicit via `Option`.
-/

set_option maxRecDepth 10000

/-- Strings of the embedded program are lists of characters. -/
abbrev Str := List Char

/-- Convert a Lean string literal to the embedded string type. -/
def str (s : String) : Str := s.data

/-- Characters treated as whitespace by Python's `str.strip` and `\s`
(ASCII subset: space, tab, newline, carriage return, vertical tab, form feed). -/
def pyIsSpace (c : Char) : Bool :=
  c = ' ' || c = '\t' || c = '\n' || c = '\r' || c = Char.ofNat 11 || c = Char.ofNat 12

/-- Python `str.strip()` (ASCII whitespace). -/
def pyStrip (s : Str) : Str :=
  ((s.dropWhile pyIsSpace).reverse.dropWhile pyIsSpace).reverse

/-- Python truthiness of a string combined with `or`: `a or b`. -/
def strOr (a b : Str) : Str := if a = [] then b else a

/-- Split a string at the first occurrence of `needle`, returning the part
before it and the part after it; `none` when `needle` does not occur.
Mirrors leftmost-match regex searching for a literal pattern. -/
def splitFirst (needle : Str) : Str → Option (Str × Str)
  | [] => none
  | c :: cs =>
    if needle ≠ [] && needle.isPrefixOf (c :: cs) then
      some ([], (c :: cs).drop needle.length)
    else
      (splitFirst needle cs).map (fun pr => (c :: pr.1, pr.2))

/-- Auxiliary scanner for `pyReplace`: `fuel` bounds the recursion and every
step consumes at least one character, so `fuel = hay.length` is always enough. -/
def pyReplaceAux (needle repl : Str) : Nat → Str → Str
  | 0, hay => hay
  | _ + 1, [] => []
  | fuel + 1, c :: cs =>
    if needle ≠ [] && needle.isPrefixOf (c :: cs) then
      repl ++ pyReplaceAux needle repl fuel ((c :: cs).drop needle.length)
    else
      c :: pyReplaceAux needle repl fuel cs

/-- Python `str.replace(needle, repl)`: replace all non-overlapping
occurrences, scanning left to right. -/
def pyReplace (needle repl : Str) (hay : Str) : Str :=
  pyReplaceAux needle repl hay.length hay

/-- Auxiliary scanner for `_strip_tags` (the `re.sub` pass): removes every
leftmost non-overlapping match of `<[^>]+>`, i.e. a literal `<`, one or more
non-`>` characters, then `>`. `fuel = s.length` always suffices. -/
def stripTagsCore : Nat → Str → Str
  | 0, s => s
  | _ + 1, [] => []
  | fuel + 1, c :: cs =>
    if c = '<' && (cs.takeWhile (· ≠ '>')) ≠ [] && cs.drop (cs.takeWhile (· ≠ '>')).length ≠ [] then
      stripTagsCore fuel (cs.drop ((cs.takeWhile (· ≠ '>')).length + 1))
    else
      c :: stripTagsCore fuel cs

/-- Model of `_strip_tags` from the source: `re.sub(r"<[^>]+>", "", value).strip()`. -/
def _strip_tags (s : Str) : Str := pyStrip (stripTagsCore s.length s)

/-- Model of Python's `html.unescape`, restricted to the five basic named
entities (`&amp;` `&lt;` `&gt;` `&quot;` `&#39;`); other text passes through
unchanged, and replacement is a single non-recursive left-to-right pass,
as in the standard library. -/
def unescapeHtml : Str → Str
  | '&' :: 'a' :: 'm' :: 'p' :: ';' :: rest => '&' :: unescapeHtml rest
  | '&' :: 'l' :: 't' :: ';' :: rest => '<' :: unescapeHtml rest
  | '&' :: 'g' :: 't' :: ';' :: rest => '>' :: unescapeHtml rest
  | '&' :: 'q' :: 'u' :: 'o' :: 't' :: ';' :: rest => '"' :: unescapeHtml rest
  | '&' :: '#' :: '3' :: '9' :: ';' :: rest => Char.ofNat 39 :: unescapeHtml rest
  | c :: rest => c :: unescapeHtml rest
  | [] => []

/-! ## Python `datetime` model -/

/-- Embedded Python `datetime`: calendar fields plus an optional fixed UTC
offset in minutes (`none` = naive, `some off` = aware). Microseconds are
omitted: the grammar subset modelled below never produces them. -/
structure PyDatetime where
  year : Nat
  month : Nat
  day : Nat
  hour : Nat
  minute : Nat
  second : Nat
  tz : Option Int
deriving DecidableEq, Repr

/-- Python `datetime.min` = `datetime(1, 1, 1, 0, 0)`, a naive value. -/
def datetimeMin : PyDatetime := ⟨1, 1, 1, 0, 0, 0, none⟩

/-- Gregorian leap-year rule used by Python's `datetime`. -/
def isLeap (y : Nat) : Bool := y % 4 = 0 && (y % 100 ≠ 0 || y % 400 = 0)

/-- Days in a month of a given year. -/
def daysInMonth (y m : Nat) : Nat :=
  if m = 2 then (if isLeap y then 29 else 28)
  else if m = 4 || m = 6 || m = 9 || m = 11 then 30
  else 31

/-- Days before the start of month `m` in year `y`. -/
def daysBeforeMonth (y m : Nat) : Nat :=
  (List.range (m - 1)).foldl (fun acc i => acc + daysInMonth y (i + 1)) 0

/-- Proleptic-Gregorian ordinal of a date (as in `datetime.toordinal`). -/
def dateOrdinal (y m d : Nat) : Int :=
  365 * ((y : Int) - 1) + ((y : Int) - 1) / 4 - ((y : Int) - 1) / 100
    + ((y : Int) - 1) / 400 + (daysBeforeMonth y m : Int) + (d : Int)

/-- Seconds since the proleptic epoch, ignoring the offset (wall-clock value). -/
def wallSeconds (t : PyDatetime) : Int :=
  86400 * dateOrdinal t.year t.month t.day
    + 3600 * (t.hour : Int) + 60 * (t.minute : Int) + (t.second : Int)

/-- Python `<` on two datetimes: naive pairs compare by wall-clock fields,
aware pairs compare by UTC instant, and comparing a naive with an aware
value raises `TypeError`, modelled as `none`. -/
def pyDatetimeLt (a b : PyDatetime) : Option Bool :=
  match a.tz, b.tz with
  | none, none => some (decide (wallSeconds a < wallSeconds b))
  | some x, some y => some (decide (wallSeconds a - 60 * x < wallSeconds b - 60 * y))
  | _, _ => none

/-- Numeric value of a decimal digit character. -/
def digitVal (c : Char) : Nat := c.toNat - 48

/-- Two decimal digit characters as a number, or `none`. -/
def twoDigits (a b : Char) : Option Nat :=
  if a.isDigit && b.isDigit then some (10 * digitVal a + digitVal b) else none

/-- Parse the time-of-day part of an ISO string: `HH`, `HH:MM` or `HH:MM:SS`
(the fractional-seconds forms are outside the modelled subset). -/
def parseTimePart : Str → Option (Nat × Nat × Nat)
  | [h1, h2] => do
    let h ← twoDigits h1 h2
    pure (h, 0, 0)
  | [h1, h2, ':', m1, m2] => do
    let h ← twoDigits h1 h2
    let m ← twoDigits m1 m2
    pure (h, m, 0)
  | [h1, h2, ':', m1, m2, ':', s1, s2] => do
    let h ← twoDigits h1 h2
    let m ← twoDigits m1 m2
    let s ← twoDigits s1 s2
    pure (h, m, s)
  | _ => none

/-- Parse the digits of a UTC offset after its sign: `HH:MM` with
`HH ≤ 23`, `MM ≤ 59`; result in minutes. -/
def parseTzTail : Str → Option Nat
  | [h1, h2, ':', m1, m2] => do
    let h ← twoDigits h1 h2
    let m ← twoDigits m1 m2
    if h ≤ 23 && m ≤ 59 then pure (60 * h + m) else none
  | _ => none

/-- Parse the portion after the date separator: time of day, then an optional
signed UTC offset introduced by the first `+`/`-` character. -/
def parseTimeAndTz (tstr : Str) : Option (Nat × Nat × Nat × Option Int) := do
  let tp := tstr.takeWhile (fun c => c ≠ '+' && c ≠ '-')
  let (h, m, s) ← parseTimePart tp
  match tstr.drop tp.length with
  | [] => pure (h, m, s, none)
  | sign :: z => do
    let off ← parseTzTail z
    pure (h, m, s, some (if sign = '-' then -(off : Int) else (off : Int)))

/-- Model of `datetime.fromisoformat` (pre-3.11 semantics, on the grammar
subset the tool exercises): `YYYY-MM-DD`, optionally followed by one
separator character and `HH[:MM[:SS]][±HH:MM]`. A trailing `Z` is not
accepted (that is exactly why `_parse_iso` has its fallback branch).
Field ranges are validated as the `datetime` constructor does. -/
def fromisoformat (s : Str) : Option PyDatetime :=
  match s with
  | y1 :: y2 :: y3 :: y4 :: '-' :: mo1 :: mo2 :: '-' :: d1 :: d2 :: rest => do
    if (y1.isDigit && y2.isDigit && y3.isDigit && y4.isDigit) = false then none else
    let y := 1000 * digitVal y1 + 100 * digitVal y2 + 10 * digitVal y3 + digitVal y4
    let mo ← twoDigits mo1 mo2
    let d ← twoDigits d1 d2
    let (h, mi, se, tz) ←
      match rest with
      | [] => some (0, 0, 0, (none : Option Int))
      | _ :: tstr => parseTimeAndTz tstr
    if 1 ≤ y && 1 ≤ mo && mo ≤ 12 && 1 ≤ d && d ≤ daysInMonth y mo
        && h ≤ 23 && mi ≤ 59 && se ≤ 59 then
      pure ⟨y, mo, d, h, mi, se, tz⟩
    else none
  | _ => none

/-- Embedding of `_parse_iso` from the source: empty string gives `None`;
otherwise try `fromisoformat`, and on failure retry with a trailing `"Z"`
replaced by `"+00:00"`. -/
def _parse_iso (ts : Str) : Option PyDatetime :=
  if ts = [] then none
  else
    match fromisoformat ts with
    | some d => some d
    | none =>
      if ts.getLast? = some 'Z' then fromisoformat (ts.dropLast ++ str "+00:00")
      else none

/-- Decimal digits of a natural number. -/
def natStr (n : Nat) : Str := Nat.toDigits 10 n

/-- Zero-padded two-digit rendering. -/
def pad2 (n : Nat) : Str := if n < 10 then '0' :: natStr n else natStr n

/-- Zero-padded four-digit rendering (years in range never need more). -/
def pad4 (n : Nat) : Str :=
  if n < 10 then '0' :: '0' :: '0' :: natStr n
  else if n < 100 then '0' :: '0' :: natStr n
  else if n < 1000 then '0' :: natStr n
  else natStr n

/-- The `%z` component of `strftime`: empty for a naive value, otherwise
sign plus zero-padded hours and minutes. -/
def tzComponent : Option Int → Str
  | none => []
  | some off =>
    (if off < 0 then '-' else '+') :: (pad2 (off.natAbs / 60) ++ pad2 (off.natAbs % 60))

/-- Embedding of `parsed_time.strftime("%Y-%m-%d %H:%M %z").strip()` from the
source: date, hours and minutes, then the offset; the trailing space left by
an empty `%z` is removed by the strip. -/
def strftimeDisplay (t : PyDatetime) : Str :=
  pyStrip (pad4 t.year ++ ('-' :: pad2 t.month) ++ ('-' :: pad2 t.day)
    ++ (' ' :: pad2 t.hour) ++ (':' :: pad2 t.minute) ++ (' ' :: tzComponent t.tz))

/-! ## Extractor: the regex scans of `_extract_articles`, `_extract_section`
and `_parse_update_file`, embedded as explicit scanners with the same
leftmost / greedy / backtracking behaviour as the fixed patterns in the
source. -/

/-- Capture for `([^"]+)"`: one or more non-quote characters (greedy)
followed by the closing quote; returns the capture and the remainder after
the closing quote. -/
def capQuote (t : Str) : Option (Str × Str) :=
  let g := t.takeWhile (· ≠ '"')
  if g ≠ [] ∧ t.drop g.length ≠ [] then some (g, t.drop (g.length + 1)) else none

/-- Suffixes following each occurrence of `needle` that is reachable through
`[^>]*`, i.e. with no `>` strictly before its start; leftmost occurrence
first. `needle` itself never contains `>`. -/
def attrOccurrences (needle : Str) : Str → List Str
  | [] => []
  | c :: cs =>
    (if needle.isPrefixOf (c :: cs) then [(c :: cs).drop needle.length] else [])
      ++ (if c = '>' then [] else attrOccurrences needle cs)

/-- Continuation of the section-attribute regex after the literal
`<section`: `[^>]*data-repo="([^"]+)"[^>]*data-agent="([^"]+)"`, with the
greedy `[^>]*` trying later occurrences first and backtracking. -/
def trySectionAttrs (rest : Str) : Option (Str × Str) :=
  (attrOccurrences (str "data-repo=\"") rest).reverse.findSome? fun r1 =>
    (capQuote r1).bind fun gr =>
      (attrOccurrences (str "data-agent=\"") gr.2).reverse.findSome? fun r3 =>
        (capQuote r3).map fun ga => (gr.1, ga.1)

/-- Leftmost search for the section-attribute pattern
`<section[^>]*data-repo="([^"]+)"[^>]*data-agent="([^"]+)"` (line 96 of the
source); returns the two captures. -/
def sectionAttrsSearch : Str → Option (Str × Str)
  | [] => none
  | c :: cs =>
    match (if (str "<section").isPrefixOf (c :: cs)
           then trySectionAttrs ((c :: cs).drop 8) else none) with
    | some ra => some ra
    | none => sectionAttrsSearch cs

/-- Leftmost search for `(<section[^>]*>.*?</section>)` (dot matches
newlines): opening tag up to the first `>`, then the shortest body up to
`</section>`; returns the whole match. -/
def extractSectionSearch : Str → Option Str
  | [] => none
  | c :: cs =>
    if (str "<section").isPrefixOf (c :: cs) then
      let rest := (c :: cs).drop 8
      let tagRest := rest.takeWhile (· ≠ '>')
      match rest.drop tagRest.length with
      | '>' :: afterGt =>
        match splitFirst (str "</section>") afterGt with
        | some bodyAfter => some (str "<section" ++ tagRest ++ ('>' :: bodyAfter.1) ++ str "</section>")
        | none => extractSectionSearch cs
      | _ => extractSectionSearch cs
    else extractSectionSearch cs

/-- Embedding of `_extract_section`: the first `<section ...>...</section>`
block, stripped; when no match, the whole document stripped. -/
def _extract_section (html : Str) : Str :=
  match extractSectionSearch html with
  | some m => pyStrip m
  | none => pyStrip html

/-- Continuation of the article regex after the literal `<article`:
`[^>]*data-status="([^"]+)"[^>]*data-time="([^"]+)"[^>]*>(.*?)</article>`.
Returns status capture, time capture, body capture, and the remainder after
`</article>` (where `findall` resumes scanning). -/
def tryArticle (rest : Str) : Option (Str × Str × Str × Str) :=
  (attrOccurrences (str "data-status=\"") rest).reverse.findSome? fun r1 =>
    (capQuote r1).bind fun gs =>
      (attrOccurrences (str "data-time=\"") gs.2).reverse.findSome? fun r3 =>
        (capQuote r3).bind fun gt =>
          let tagRest := gt.2.takeWhile (· ≠ '>')
          match gt.2.drop tagRest.length with
          | '>' :: afterGt =>
            (splitFirst (str "</article>") afterGt).map fun ba =>
              (gs.1, gt.1, ba.1, ba.2)
          | _ => none

/-- The `re.findall` scan of the article pattern: leftmost, non-overlapping,
resuming after each match; matches are returned in document order. `fuel`
bounds the recursion and every step consumes at least one character. -/
def findArticlesAux : Nat → Str → List (Str × Str × Str)
  | 0, _ => []
  | _ + 1, [] => []
  | fuel + 1, c :: cs =>
    if (str "<article").isPrefixOf (c :: cs) then
      match tryArticle ((c :: cs).drop 8) with
      | some r => (r.1, r.2.1, r.2.2.1) :: findArticlesAux fuel r.2.2.2
      | none => findArticlesAux fuel cs
    else findArticlesAux fuel cs

/-- All article matches of a fragment, in document order. -/
def findArticleTriples (s : Str) : List (Str × Str × Str) := findArticlesAux s.length s

/-- One parsed update entry (one dict appended by `_extract_articles`). -/
structure Article where
  status : Str
  time_raw : Str
  time_display : Str
  summary : Str
  stage : Str
  notes : Str
  sort_key : PyDatetime
deriving DecidableEq, Repr

/-- Capture of `<h4>(.*?)</h4>` (dot matches newlines): content between the
first `<h4>` and the first `</h4>` after it. -/
def h4Content (body : Str) : Option Str :=
  (splitFirst (str "<h4>") body).bind fun pr =>
    (splitFirst (str "</h4>") pr.2).map (·.1)

/-- Leftmost search for `label\s*([^<]+)` (as in the Stage/Notes patterns of
the source): at each occurrence of the literal `label` the match succeeds
exactly when the next character exists and is not `<`; the greedy `\s*`
backtracks just enough for `[^<]+` to take at least one character, so when
only whitespace is available before a `<` (or the end), the capture is the
last whitespace character. -/
def labeledCapture (label : Str) : Str → Option Str
  | [] => none
  | c :: cs =>
    if label.isPrefixOf (c :: cs) then
      match (c :: cs).drop label.length with
      | [] => labeledCapture label cs
      | r :: rs =>
        if r = '<' then labeledCapture label cs
        else
          let ws := (r :: rs).takeWhile pyIsSpace
          let after := (r :: rs).drop ws.length
          if after ≠ [] ∧ after.headI ≠ '<' then some (after.takeWhile (· ≠ '<'))
          else
            match ws.getLast? with
            | some w => some [w]
            | none => none
    else labeledCapture label cs

/-- The per-match body of `_extract_articles` (source lines 59-88): build one
entry from the three captures of the article pattern. -/
def mkArticle (status time_raw body : Str) : Article :=
  let summary := match h4Content body with
    | some g => _strip_tags (unescapeHtml g)
    | none => []
  let stage := match labeledCapture (str "<strong>Stage:</strong>") body with
    | some g => _strip_tags (unescapeHtml g)
    | none => []
  let notes := match labeledCapture (str "<strong>Notes:</strong>") body with
    | some g => _strip_tags (unescapeHtml g)
    | none => []
  let parsed := _parse_iso time_raw
  let time_display := match parsed with
    | some t => strftimeDisplay t
    | none => time_raw
  { status := strOr (pyStrip status) (str "unknown")
    time_raw := pyStrip time_raw
    time_display := time_display
    summary := summary
    stage := stage
    notes := notes
    sort_key := parsed.getD datetimeMin }

/-- Embedding of `_extract_articles` given the findall matches: one entry per
match, in match order. -/
def _extract_articles (triples : List (Str × Str × Str)) : List Article :=
  triples.map fun t => mkArticle t.1 t.2.1 t.2.2

/-- One repository record, as returned by `_parse_update_file`. -/
structure RepoRecord where
  repo : Str
  agent : Str
  status : Str
  time_raw : Str
  time_display : Str
  summary : Str
  section_html : Str
  sort_key : PyDatetime
  articles : List Article
deriving DecidableEq, Repr

/-- Embedding of `_parse_update_file`: `stem` is the filename without its
`.html` suffix (Python `path.stem`), `raw` the file content. -/
def _parse_update_file (stem raw : Str) : RepoRecord :=
  let section_html := _extract_section raw
  let attrs := sectionAttrsSearch section_html
  let repo := match attrs with
    | some ra => ra.1
    | none => pyReplace (str "updates-") [] stem
  let agent := match attrs with
    | some ra => ra.2
    | none => str "unknown"
  let articles := _extract_articles (findArticleTriples section_html)
  { repo := repo
    agent := agent
    status := strOr (match articles.head? with
      | some latest => latest.status
      | none => str "unknown") (str "unknown")
    time_raw := match articles.head? with
      | some latest => latest.time_raw
      | none => []
    time_display := match articles.head? with
      | some latest => latest.time_display
      | none => []
    summary := match articles.head? with
      | some latest => latest.summary
      | none => []
    section_html := section_html
    sort_key := match articles.head? with
      | some latest => latest.sort_key
      | none => datetimeMin
    articles := articles }

/-! ## Aggregator and renderer -/

/-- Source `_repo_page_filename`: keep an existing `repo-` prefix, otherwise
prepend it; always append `.html`. -/
def _repo_page_filename (repo : Str) : Str :=
  if (str "repo-").isPrefixOf repo then repo ++ str ".html"
  else str "repo-" ++ repo ++ str ".html"

/-- Python `"\n".join`. -/
def joinNl (xs : List Str) : Str := List.intercalate ['\n'] xs

/-- Python `str.splitlines()` for strings whose only line terminator is
`'\n'` (the only terminator this program produces): no trailing empty line. -/
def pySplitlines (s : Str) : List Str :=
  if s = [] then []
  else
    let parts := s.splitOn '\n'
    if parts.getLast? = some [] then parts.dropLast else parts

/-- Source `_indent_block`: prefix each non-blank line with `spaces` spaces. -/
def _indent_block (text : Str) (spaces : Nat) : Str :=
  joinNl ((pySplitlines text).map fun line =>
    if pyStrip line ≠ [] then List.replicate spaces ' ' ++ line else line)

/-- Source `badge_label` (nested in `build_dashboard`): split the identifier
on runs of non-alphanumeric characters; no tokens gives `"RP"`, a single
token gives its first two characters uppercased, otherwise the initials of
the first two tokens uppercased. -/
def badge_label (repo : Str) : Str :=
  let parts := (repo.splitBy fun a b => a.isAlphanum = b.isAlphanum).filter
    fun g => g.any Char.isAlphanum
  match parts with
  | [] => str "RP"
  | [p] => (p.take 2).map Char.toUpper
  | p1 :: p2 :: _ => (p1.take 1 ++ p2.take 1).map Char.toUpper

/-- Python `str.capitalize()`: first character uppercased, the rest
lowercased (ASCII). -/
def pyCapitalize : Str → Str
  | [] => []
  | c :: cs => Char.toUpper c :: cs.map Char.toLower

/-- Round the ratio `a / b` half-to-even to an integer (Python `round` on an
exact nonnegative rational value). -/
def rheDiv (a b : Nat) : Nat :=
  let q := a / b
  let r := a % b
  if 2 * r < b then q
  else if b < 2 * r then q + 1
  else if q % 2 = 0 then q else q + 1

/-- Fuel-driven `Nat.log2` (structural, so the kernel can evaluate it). -/
def natLog2Aux : Nat → Nat → Nat
  | 0, _ => 0
  | fuel + 1, n => if 2 ≤ n then natLog2Aux fuel (n / 2) + 1 else 0

/-- Floor of the base-2 logarithm of a natural number. -/
def natLog2 (n : Nat) : Nat := natLog2Aux n n

/-- The floor of the base-2 logarithm of the positive ratio `a / b`. -/
def floorLog2 (a b : Nat) : ℤ :=
  let k0 : ℤ := (natLog2 a : ℤ) - (natLog2 b : ℤ)
  let lt := if 0 ≤ k0 then a < 2 ^ k0.toNat * b else a * 2 ^ (-k0).toNat < b
  if lt then k0 - 1 else k0

/-- The nearest IEEE-754 binary64 value to the nonnegative ratio `a / b`, as
a mantissa/exponent pair `(m, e)` of value `m * 2 ^ e`: round half to even
onto a 53-bit significand, subnormals clamped at the scale `2 ^ (-1074)`.
Python's `int / int` true division is correctly rounded, so this is exactly
the double it produces. -/
def fl64Pair (a b : Nat) : Nat × ℤ :=
  if a = 0 ∨ b = 0 then (0, 0)
  else
    let k := floorLog2 a b
    let scale : ℤ := if k - 52 ≤ -1074 then -1074 else k - 52
    let m := if scale ≤ 0 then rheDiv (a * 2 ^ (-scale).toNat) b
             else rheDiv a (b * 2 ^ scale.toNat)
    (m, scale)

/-- Python `round` of the binary64 value `m * 2 ^ e` (half to even; exact). -/
def roundPair (m : Nat) (e : ℤ) : Nat :=
  if 0 ≤ e then m * 2 ^ e.toNat else rheDiv m (2 ^ (-e).toNat)

/-- The exact value of Python's `round((c / t) * 100)` for nonnegative
integers `c ≤ t`, `t > 0`: the true division rounds to a double, the
multiplication by 100 rounds again (correctly rounded IEEE multiplication,
here renormalised through `fl64Pair` since `m * 100 * 2 ^ e` is exact), and
`round` rounds the resulting double half-to-even to an integer. -/
def pyRoundRatioTimes100 (c t : Nat) : Nat :=
  let p1 := fl64Pair c t
  let a2 := p1.1 * 100
  let p2 := if 0 ≤ p1.2 then fl64Pair (a2 * 2 ^ p1.2.toNat) 1
            else fl64Pair a2 (2 ^ (-p1.2).toNat)
  roundPair p2.1 p2.2

/-- Source lines 245-248: the rendered success-rate metric. `completed` and
`errors` count entries whose status is exactly `"complete"` / `"error"`; the
value is `round((completed / total) * 100)` computed in binary64 floating
point (modelled exactly by `pyRoundRatioTimes100`), or `"N/A"` when the
denominator is zero. -/
def successRateOf (articles : List Article) : Str :=
  let completed := (articles.filter fun a => a.status = str "complete").length
  let errors := (articles.filter fun a => a.status = str "error").length
  let total := completed + errors
  if total ≠ 0 then natStr (pyRoundRatioTimes100 completed total) ++ ['%']
  else str "N/A"

/-- Insert a record into a list sorted descending by `sort_key`, after any
records with an equal or larger key (the stable placement `list.sort`
with `reverse=True` produces); `none` when Python's mixed naive/aware
datetime comparison would raise `TypeError`. -/
def insertByKeyDesc (x : RepoRecord) : List RepoRecord → Option (List RepoRecord)
  | [] => some [x]
  | y :: ys => do
    let b ← pyDatetimeLt y.sort_key x.sort_key
    if b then pure (x :: y :: ys)
    else do
      let t ← insertByKeyDesc x ys
      pure (y :: t)

/-- Model of `updates.sort(key=lambda item: item["sort_key"], reverse=True)`:
a stable descending sort. CPython compares some naive/aware pair whenever
both kinds of key are present, raising `TypeError`; this model likewise
yields `none` exactly then, since the first insertion of a differing kind
compares against the accumulated list's head. -/
def sortByKeyDesc (l : List RepoRecord) : Option (List RepoRecord) :=
  l.foldlM (fun acc x => insertByKeyDesc x acc) []

/-- The placeholder row rendered when no update files exist (source lines
138-146; adjacent Python string literals concatenate without newlines). -/
def missingRow : Str :=
  str "            <tr><td data-label=\"Repo\">-</td><td data-label=\"Latest Status\"><span class=\"status-pill error\">Missing</span></td><td data-label=\"Last Update\">-</td><td data-label=\"Agent\">-</td><td data-label=\"Summary\">No updates found</td></tr>"

/-- The fixed first entry of the navigation rail (source lines 131-133). -/
def railHome : Str :=
  str "      <a class=\"server-dot active\" href=\"dashboard.html\" title=\"Dashboard\">CD</a>"

/-- One status-table row (source lines 164-172). -/
def rowOf (item : RepoRecord) : Str :=
  str "            <tr>\n              <td data-label=\"Repo\"><a class=\"repo-link\" href=\""
    ++ _repo_page_filename item.repo ++ str "\">" ++ item.repo
    ++ str "</a></td>\n              <td data-label=\"Latest Status\"><span class=\"status-pill "
    ++ item.status ++ str "\">" ++ pyCapitalize item.status
    ++ str "</span></td>\n              <td data-label=\"Last Update\">" ++ item.time_display
    ++ str "</td>\n              <td data-label=\"Agent\">" ++ item.agent
    ++ str "</td>\n              <td data-label=\"Summary\">" ++ item.summary
    ++ str "</td>\n            </tr>"

/-- One dashboard rail entry (source lines 158-161). -/
def railEntryOf (item : RepoRecord) : Str :=
  str "      <a class=\"server-dot\" href=\"" ++ _repo_page_filename item.repo
    ++ str "\" title=\"" ++ item.repo ++ str "\">" ++ badge_label item.repo ++ str "</a>"

/-- One history block (source lines 174-182). -/
def historyBlockOf (item : RepoRecord) : Str :=
  str "          <div class=\"repo-block\">\n            <div class=\"repo-header\">\n              <h3>"
    ++ item.repo ++ str "</h3>\n              <span>Agent: " ++ item.agent
    ++ str "</span>\n            </div>\n" ++ _indent_block item.section_html 12
    ++ str "\n          </div>"

/-- One activity-feed item (source lines 203-211). -/
def activityItemOf (a : Article) : Str :=
  str "          <li class=\"activity-item\">\n            <div>\n              <strong>"
    ++ strOr a.summary (str "Update")
    ++ str "</strong>\n              <div class=\"item-meta\">Stage: "
    ++ strOr a.stage (str "update")
    ++ str "</div>\n            </div>\n            <div class=\"item-meta\">"
    ++ strOr a.time_display (str "-") ++ str "</div>\n          </li>"

/-- The placeholder activity item (source lines 213-221). -/
def activityPlaceholder : Str :=
  str "          <li class=\"activity-item\">\n            <div>\n              <strong>No activity recorded yet</strong>\n              <div class=\"item-meta\">Add updates to populate this feed.</div>\n            </div>\n            <div class=\"item-meta\">-</div>\n          </li>"

/-- One incident-feed item (source lines 225-233). -/
def incidentItemOf (a : Article) : Str :=
  str "          <li class=\"incident-item\">\n            <div>\n              <strong>"
    ++ strOr a.summary (str "Incident")
    ++ str "</strong>\n              <div class=\"item-meta\">"
    ++ strOr a.notes (str "Details in update log.")
    ++ str "</div>\n            </div>\n            <div class=\"item-meta\">"
    ++ strOr a.time_display (str "-") ++ str "</div>\n          </li>"

/-- The placeholder incident item (source lines 234-243). -/
def incidentPlaceholder : Str :=
  str "          <li class=\"incident-item\">\n            <div>\n              <strong>No incidents reported</strong>\n              <div class=\"item-meta\">All clear in recent updates.</div>\n            </div>\n            <div class=\"item-meta\">-</div>\n          </li>"

/-- One metric card (source lines 250-273 share this shape). -/
def metricCard (title value meta : Str) : Str :=
  str "          <div class=\"metric-card\">\n            <span>" ++ title
    ++ str "</span>\n            <strong>" ++ value
    ++ str "</strong>\n            <div class=\"item-meta\">" ++ meta
    ++ str "</div>\n          </div>"

/-- The two fixed experiment items (source lines 275-292). -/
def experimentItemsOf (agent : Str) : Str :=
  joinNl
    [str "          <li class=\"experiment-item\">\n            <div>\n              <strong>Experiment backlog</strong>\n              <div class=\"item-meta\">Status: pending · Capture experiments in updates.</div>\n            </div>\n            <div class=\"item-meta\">Owner: "
       ++ agent ++ str "</div>\n          </li>",
     str "          <li class=\"experiment-item\">\n            <div>\n              <strong>Automation improvements</strong>\n              <div class=\"item-meta\">Status: planning · Track automation tweaks.</div>\n            </div>\n            <div class=\"item-meta\">Owner: engineering</div>\n          </li>"]

/-- One entry of a repository page's navigation rail (source lines 297-301):
the entry for the current repository is marked active. -/
def repoRailEntry (current railItem : RepoRecord) : Str :=
  str "      <a class=\"server-dot"
    ++ (if railItem.repo = current.repo then str " active" else [])
    ++ str "\" href=\"" ++ _repo_page_filename railItem.repo
    ++ str "\" title=\"" ++ railItem.repo ++ str "\">" ++ badge_label railItem.repo ++ str "</a>"

/-- The `latest` values of a repository page (source lines 184-190):
fields of the first entry, or fixed placeholders when there are none. -/
def latestStatusOf (item : RepoRecord) : Str :=
  match item.articles.head? with
  | some a => a.status
  | none => str "unknown"

/-- The latest summary before the substitution-time fallback (line 188). -/
def latestSummaryOf (item : RepoRecord) : Str :=
  match item.articles.head? with
  | some a => a.summary
  | none => str "No updates yet"

/-- The latest stage before the substitution-time fallback (line 189). -/
def latestStageOf (item : RepoRecord) : Str :=
  match item.articles.head? with
  | some a => a.stage
  | none => str "update"

/-- The latest display time before the substitution-time fallback (line 190). -/
def latestTimeOf (item : RepoRecord) : Str :=
  match item.articles.head? with
  | some a => a.time_display
  | none => str "-"

/-- The value substituted for the latest-summary placeholder (line 309):
empty summaries fall back to `"Update"`. -/
def latestSummaryValue (item : RepoRecord) : Str := strOr (latestSummaryOf item) (str "Update")

/-- The value substituted for the latest-stage placeholder (line 310). -/
def latestStageValue (item : RepoRecord) : Str := strOr (latestStageOf item) (str "update")

/-- The value substituted for the latest-time placeholder (line 311). -/
def latestTimeValue (item : RepoRecord) : Str := strOr (latestTimeOf item) (str "-")

/-- Build one repository page (source lines 184-320): compute the derived
values for `item` and substitute them into the repository template. -/
def buildRepoPage (updates : List RepoRecord) (repoTemplate : Str) (item : RepoRecord) : Str :=
  let articles := item.articles
  let recent_incident := articles.find? fun a => a.status = str "error"
  let recent_outcome_title :=
    match recent_incident with
    | some a => a.summary
    | none => str "No incidents"
  let recent_outcome_note :=
    match recent_incident with
    | some a => if a.notes ≠ [] then a.notes else str "Latest activity looks healthy."
    | none => str "Latest activity looks healthy."
  let activity_items :=
    match (articles.take 3).map activityItemOf with
    | [] => [activityPlaceholder]
    | xs => xs
  let incident_items :=
    match (articles.filter fun a => a.status = str "error").map incidentItemOf with
    | [] => [incidentPlaceholder]
    | xs => xs
  let errors := (articles.filter fun a => a.status = str "error").length
  let metric_cards := joinNl
    [metricCard (str "Success rate") (successRateOf articles) (str "Recent updates"),
     metricCard (str "Total updates") (natStr articles.length) (str "Logged entries"),
     metricCard (str "Open incidents") (natStr errors) (str "Error entries"),
     metricCard (str "Last update") (strOr (latestTimeOf item) (str "-")) (str "Most recent entry")]
  let repo_server_rail :=
    str "      <a class=\"server-dot\" href=\"dashboard.html\" title=\"Dashboard\">CD</a>"
      :: updates.map (repoRailEntry item)
  let page := repoTemplate
  let page := pyReplace (str "\x7b\x7bSERVER_RAIL\x7d\x7d") (joinNl repo_server_rail) page
  let page := pyReplace (str "\x7b\x7bREPO_NAME\x7d\x7d") item.repo page
  let page := pyReplace (str "\x7b\x7bAGENT_NAME\x7d\x7d") item.agent page
  let page := pyReplace (str "\x7b\x7bLATEST_STATUS_CLASS\x7d\x7d") (latestStatusOf item) page
  let page := pyReplace (str "\x7b\x7bLATEST_STATUS_LABEL\x7d\x7d") (pyCapitalize (latestStatusOf item)) page
  let page := pyReplace (str "\x7b\x7bLATEST_SUMMARY\x7d\x7d") (latestSummaryValue item) page
  let page := pyReplace (str "\x7b\x7bLATEST_STAGE\x7d\x7d") (latestStageValue item) page
  let page := pyReplace (str "\x7b\x7bLATEST_TIME_DISPLAY\x7d\x7d") (latestTimeValue item) page
  let page := pyReplace (str "\x7b\x7bRECENT_OUTCOME_TITLE\x7d\x7d") (strOr recent_outcome_title (str "No incidents")) page
  let page := pyReplace (str "\x7b\x7bRECENT_OUTCOME_NOTE\x7d\x7d") (strOr recent_outcome_note []) page
  let page := pyReplace (str "\x7b\x7bACTIVITY_ITEMS\x7d\x7d") (joinNl activity_items) page
  let page := pyReplace (str "\x7b\x7bINCIDENT_ITEMS\x7d\x7d") (joinNl incident_items) page
  let page := pyReplace (str "\x7b\x7bMETRIC_CARDS\x7d\x7d") metric_cards page
  let page := pyReplace (str "\x7b\x7bEXPERIMENT_ITEMS\x7d\x7d") (experimentItemsOf item.agent) page
  pyReplace (str "\x7b\x7bHISTORY_SECTION\x7d\x7d") (_indent_block item.section_html 8) page

/-- The whole output of one run: the dashboard page's building blocks and
final text, and the per-repository files as (filename, content) pairs in
write order. -/
structure BuildOutput where
  rows : List Str
  historyBlocks : List Str
  serverRail : List Str
  repoFiles : List (Str × Str)
  dashboard : Str
deriving DecidableEq, Repr

/-- The final substitution into the dashboard template (source lines 325-329). -/
def renderDashboard (template : Str) (rows hist rail : List Str) : Str :=
  pyReplace (str "\x7b\x7bSERVER_RAIL\x7d\x7d") (joinNl rail)
    (pyReplace (str "\x7b\x7bHISTORY_BLOCKS\x7d\x7d") (joinNl hist)
      (pyReplace (str "\x7b\x7bSTATUS_ROWS\x7d\x7d") (joinNl rows) template))

/-- Embedding of `build_dashboard`: `files` is the list of
(`path.stem`, file content) pairs for the files matching `updates-*.html`,
already in sorted filename order (Python sorts the glob result); the two
templates are passed explicitly. `none` models the run aborting with the
`TypeError` that `updates.sort` raises on mixed naive/aware sort keys. -/
def build_dashboard (files : List (Str × Str)) (template repoTemplate : Str) :
    Option BuildOutput := do
  let updates ← sortByKeyDesc (files.map fun f => _parse_update_file f.1 f.2)
  if updates = [] then
    let rows := [missingRow]
    pure ⟨rows, [], [railHome], [], renderDashboard template rows [] [railHome]⟩
  else
    let rows := updates.map rowOf
    let hist := updates.map historyBlockOf
    let rail := railHome :: updates.map railEntryOf
    let repoFiles := updates.map fun item =>
      (_repo_page_filename item.repo, buildRepoPage updates repoTemplate item)
    pure ⟨rows, hist, rail, repoFiles, renderDashboard template rows hist rail⟩

/-! ## Concrete inputs used by witnesses and counterexamples -/

/-- A fragment whose latest entry has an offset-aware timestamp. -/
def fragAlpha : Str :=
  str "<section data-repo=\"alpha\" data-agent=\"bot\"><article data-status=\"complete\" data-time=\"2024-03-01T10:00:00Z\"><h4>Fix</h4></article></section>"

/-- A fragment whose latest entry has an unparseable timestamp, so its sort
key is the naive `datetime.min`. -/
def fragBeta : Str :=
  str "<section data-repo=\"beta\" data-agent=\"cat\"><article data-status=\"error\" data-time=\"yesterday\"><h4>Broke</h4></article></section>"

/-- A fragment with a naive timestamp newer than `fragDelta`. -/
def fragGamma : Str :=
  str "<section data-repo=\"gamma\" data-agent=\"bot\"><article data-status=\"complete\" data-time=\"2024-03-02T09:00:00\"><h4>Later</h4></article></section>"

/-- A fragment with a naive timestamp older than `fragGamma`. -/
def fragDelta : Str :=
  str "<section data-repo=\"delta\" data-agent=\"cat\"><article data-status=\"complete\" data-time=\"2024-01-01T00:00:00\"><h4>Earlier</h4></article></section>"

/-- A small dashboard template with the three placeholders. -/
def tmplDash : Str :=
  str "<html>\n\x7b\x7bSTATUS_ROWS\x7d\x7d\n\x7b\x7bHISTORY_BLOCKS\x7d\x7d\n\x7b\x7bSERVER_RAIL\x7d\x7d\n</html>"

/-- A small repository-page template with the placeholders this run uses. -/
def tmplRepo : Str :=
  str "<html>\x7b\x7bREPO_NAME\x7d\x7d|\x7b\x7bLATEST_STATUS_CLASS\x7d\x7d|\x7b\x7bLATEST_SUMMARY\x7d\x7d|\x7b\x7bLATEST_STAGE\x7d\x7d|\x7b\x7bLATEST_TIME_DISPLAY\x7d\x7d</html>"

/-- The success-rate formula exactly as the claim states it: the mathematical
`round(100 * complete / (complete + error))` (Python's round, half to even)
of the exact rational, `"N/A"` when the denominator is zero. -/
def claimSuccessRate (completed errors : Nat) : Str :=
  if completed + errors = 0 then str "N/A"
  else natStr (rheDiv (100 * completed) (completed + errors)) ++ ['%']

/-- A list of 23 `complete` and 17 `error` entries. -/
def artsTwentyThreeSeventeen : List Article :=
  List.replicate 23 (mkArticle (str "complete") [] [])
    ++ List.replicate 17 (mkArticle (str "error") [] [])

/-- A well-formed article match: non-blank status attribute, non-empty
timestamp attribute, and summary and stage blocks present whose contents
survive tag-stripping non-empty. (This is the shape the tool's own fragments
always have; the degenerate shapes are covered by C5.) -/
def wellFormedTripleB (t : Str × Str × Str) : Bool :=
  decide (pyStrip t.1 ≠ []) && decide (t.2.1 ≠ []) &&
  (match h4Content t.2.2 with
   | some g => decide (_strip_tags (unescapeHtml g) ≠ [])
   | none => false) &&
  (match labeledCapture (str "<strong>Stage:</strong>") t.2.2 with
   | some g => decide (_strip_tags (unescapeHtml g) ≠ [])
   | none => false)

/-- The first article match of `fragEps`. -/
def tripA : Str × Str × Str :=
  (str "complete", str "2024-03-01T10:00:00Z",
   str "<h4>Fix build</h4><p><strong>Stage:</strong> deploy</p>")

/-- The second article match of `fragEps`. -/
def tripB : Str × Str × Str :=
  (str "error", str "2024-02-01T10:00:00Z",
   str "<h4>Broke</h4><p><strong>Stage:</strong> test</p>")

/-- A fragment with two fully populated article entries. -/
def fragEps : Str :=
  str "<section data-repo=\"eps\" data-agent=\"bot\"><article data-status=\"complete\" data-time=\"2024-03-01T10:00:00Z\"><h4>Fix build</h4><p><strong>Stage:</strong> deploy</p></article><article data-status=\"error\" data-time=\"2024-02-01T10:00:00Z\"><h4>Broke</h4><p><strong>Stage:</strong> test</p></article></section>"

/-! ## Evaluation checks of the embedding on concrete inputs -/

example : badge_label (str "my-repo") = str "MR" := by decide

example : badge_label (str "x") = str "X" := by decide

example : badge_label (str "--") = str "RP" := by decide

example :
    successRateOf (List.replicate 23 (mkArticle (str "complete") [] []) ++
      List.replicate 17 (mkArticle (str "error") [] [])) = str "57%" := by decide

example : successRateOf [mkArticle (str "running") [] []] = str "N/A" := by decide

example : successRateOf [mkArticle (str "complete") [] [], mkArticle (str "running") [] []]
    = str "100%" := by decide

example : rheDiv (100 * 23) 40 = 58 := by decide

example : pyRoundRatioTimes100 23 40 = 57 := by decide

example : pyRoundRatioTimes100 1 3 = 33 := by decide

example : pyRoundRatioTimes100 2 3 = 67 := by decide

example : pyRoundRatioTimes100 1 8 = 12 := by decide

example :
    build_dashboard [(str "updates-alpha", fragAlpha), (str "updates-beta", fragBeta)]
      tmplDash tmplRepo = none := by decide

example :
    (build_dashboard [] tmplDash tmplRepo).map (fun o => (o.rows, o.repoFiles))
      = some ([missingRow], []) := by decide

example :
    (build_dashboard [(str "updates-delta", fragDelta), (str "updates-gamma", fragGamma)]
        tmplDash tmplRepo).map (fun o => o.repoFiles.map (·.1))
      = some [str "repo-gamma.html", str "repo-delta.html"] := by decide

example : pyStrip (str "  ab c  ") = str "ab c" := by decide

example : pyReplace (str "updates-") [] (str "updates-alpha") = str "alpha" := by decide

example : _strip_tags (str " <b>hi</b> there ") = str "hi there" := by decide

example : unescapeHtml (str "a &amp;amp; b") = str "a &amp; b" := by decide

example : splitFirst (str "<h4>") (str "xx<h4>yy") = some (str "xx", str "yy") := by decide

example : _parse_iso (str "2024-03-01T10:00:00Z") = some ⟨2024, 3, 1, 10, 0, 0, some 0⟩ := by decide

example : _parse_iso (str "2024-03-01T10:00:00") = some ⟨2024, 3, 1, 10, 0, 0, none⟩ := by decide

example : _parse_iso (str "yesterday") = none := by decide

example : _parse_iso (str "2024-02-30T10:00:00") = none := by decide

example : _parse_iso (str "2024-03-01 10:05:07+05:30") = some ⟨2024, 3, 1, 10, 5, 7, some 330⟩ := by decide

example : strftimeDisplay ⟨2024, 3, 1, 10, 0, 0, some 0⟩ = str "2024-03-01 10:00 +0000" := by decide

example : strftimeDisplay ⟨2024, 3, 1, 10, 0, 0, none⟩ = str "2024-03-01 10:00" := by decide

example : pyDatetimeLt ⟨2024, 3, 1, 10, 0, 0, some 0⟩ datetimeMin = none := by decide

example : pyDatetimeLt datetimeMin ⟨2024, 3, 1, 10, 0, 0, none⟩ = some true := by decide

example :
    findArticleTriples (str "<p>x</p><article class=\"u\" data-status=\"complete\" data-time=\"2024-03-01T10:00:00Z\"><h4>Fix build</h4><p><strong>Stage:</strong> deploy</p></article><article data-status=\" \" data-time=\"yesterday\"></article>")
      = [(str "complete", str "2024-03-01T10:00:00Z",
          str "<h4>Fix build</h4><p><strong>Stage:</strong> deploy</p>"),
         (str " ", str "yesterday", [])] := by decide

example :
    mkArticle (str "complete") (str "2024-03-01T10:00:00Z")
        (str "<h4>Fix &amp; build</h4><p><strong>Stage:</strong> deploy</p><p><strong>Notes:</strong> all good</p>")
      = ⟨str "complete", str "2024-03-01T10:00:00Z", str "2024-03-01 10:00 +0000",
         str "Fix & build", str "deploy", str "all good", ⟨2024, 3, 1, 10, 0, 0, some 0⟩⟩ := by decide

example : mkArticle (str " ") (str "yesterday") []
      = ⟨str "unknown", str "yesterday", str "yesterday", [], [], [], datetimeMin⟩ := by decide

example :
    sectionAttrsSearch (str "<section class=\"log\" data-repo=\"alpha\" data-agent=\"bot\">")
      = some (str "alpha", str "bot") := by decide

example :
    _extract_section (str "header\n<section data-repo=\"a\" data-agent=\"b\"><article></article></section>\nfooter")
      = str "<section data-repo=\"a\" data-agent=\"b\"><article></article></section>" := by decide

example :
    (_parse_update_file (str "updates-alpha") (str "<section data-repo=\"alpha\" data-agent=\"bot\"><article data-status=\"complete\" data-time=\"2024-03-01T10:00:00Z\"><h4>Fix</h4></article></section>")).repo
      = str "alpha" := by decide

example : (_parse_update_file (str "updates-") []).repo = [] := by decide

example : (_parse_update_file (str "updates-") []).agent = str "unknown" := by decide

/-! ## Supporting lemmas -/

/-- Unfolding lemma: the status stored by `mkArticle`. -/
theorem mkArticle_status (s tr b : Str) :
    (mkArticle s tr b).status = strOr (pyStrip s) (str "unknown") := rfl

/-- Unfolding lemma: the sort key stored by `mkArticle`. -/
theorem mkArticle_sort_key (s tr b : Str) :
    (mkArticle s tr b).sort_key = (_parse_iso tr).getD datetimeMin := rfl

/-- Unfolding lemma: the display time stored by `mkArticle`. -/
theorem mkArticle_time_display (s tr b : Str) :
    (mkArticle s tr b).time_display
      = (match _parse_iso tr with | some t => strftimeDisplay t | none => tr) := rfl

/-- Unfolding lemma: the summary stored by `mkArticle`. -/
theorem mkArticle_summary (s tr b : Str) :
    (mkArticle s tr b).summary
      = (match h4Content b with
         | some g => _strip_tags (unescapeHtml g)
         | none => []) := rfl

/-- Unfolding lemma: the stage stored by `mkArticle`. -/
theorem mkArticle_stage (s tr b : Str) :
    (mkArticle s tr b).stage
      = (match labeledCapture (str "<strong>Stage:</strong>") b with
         | some g => _strip_tags (unescapeHtml g)
         | none => []) := rfl

/-- Unfolding lemma: the notes stored by `mkArticle`. -/
theorem mkArticle_notes (s tr b : Str) :
    (mkArticle s tr b).notes
      = (match labeledCapture (str "<strong>Notes:</strong>") b with
         | some g => _strip_tags (unescapeHtml g)
         | none => []) := rfl

/-- A successful quote capture is non-empty (the pattern is `[^"]+`). -/
theorem capQuote_fst_ne_nil {t g r : Str} (h : capQuote t = some (g, r)) : g ≠ [] := by
  simp only [capQuote] at h
  split at h
  · rename_i hc
    injection h with h'
    cases h'
    exact hc.1
  · exact Option.noConfusion h

/-- Both captures of the section-attribute pattern are non-empty. -/
theorem trySectionAttrs_ne_nil {rest : Str} {ra : Str × Str}
    (h : trySectionAttrs rest = some ra) : ra.1 ≠ [] ∧ ra.2 ≠ [] := by
  unfold trySectionAttrs at h
  obtain ⟨-, r1, -, -, h1, -⟩ := List.findSome?_eq_some_iff.1 h
  cases hq : capQuote r1 with
  | none => rw [hq] at h1; exact Option.noConfusion h1
  | some gr =>
    rw [hq] at h1
    rw [Option.some_bind] at h1
    obtain ⟨-, r3, -, -, h3, -⟩ := List.findSome?_eq_some_iff.1 h1
    cases hq2 : capQuote r3 with
    | none => rw [hq2] at h3; exact Option.noConfusion h3
    | some ga =>
      rw [hq2] at h3
      rw [Option.map_some'] at h3
      obtain ⟨g1, r2⟩ := gr
      obtain ⟨g2, r4⟩ := ga
      injection h3 with h3'
      cases h3'
      exact ⟨capQuote_fst_ne_nil hq, capQuote_fst_ne_nil hq2⟩

/-- A successful section-attribute search yields non-empty captures. -/
theorem sectionAttrsSearch_ne_nil :
    ∀ {s : Str} {ra : Str × Str}, sectionAttrsSearch s = some ra →
      ra.1 ≠ [] ∧ ra.2 ≠ []
  | [], _, h => Option.noConfusion h
  | c :: cs, ra, h => by
    rw [sectionAttrsSearch] at h
    cases hif : (if (str "<section").isPrefixOf (c :: cs)
        then trySectionAttrs ((c :: cs).drop 8) else none) with
    | some x =>
      rw [hif] at h
      injection h with h'
      cases h'
      split at hif
      · exact trySectionAttrs_ne_nil hif
      · exact Option.noConfusion hif
    | none =>
      rw [hif] at h
      exact sectionAttrsSearch_ne_nil h

/-- The repo identifier of a record, independent of the articles branch. -/
theorem parse_update_file_repo (stem raw : Str) :
    (_parse_update_file stem raw).repo
      = (match sectionAttrsSearch (_extract_section raw) with
         | some ra => ra.1
         | none => pyReplace (str "updates-") [] stem) := rfl

/-- The agent identifier of a record, independent of the articles branch. -/
theorem parse_update_file_agent (stem raw : Str) :
    (_parse_update_file stem raw).agent
      = (match sectionAttrsSearch (_extract_section raw) with
         | some ra => ra.2
         | none => str "unknown") := rfl

/-- A string containing a non-whitespace character does not strip to empty. -/
theorem pyStrip_ne_nil_of_mem {s : Str} {c : Char} (hc : c ∈ s)
    (hw : pyIsSpace c = false) : pyStrip s ≠ [] := by
  intro h
  have hall : ∀ x ∈ s, pyIsSpace x = true := by
    intro x hx
    have h2 : (((s.dropWhile pyIsSpace).reverse.dropWhile pyIsSpace)).reverse = [] := h
    rw [List.reverse_eq_nil_iff] at h2
    have h3 := List.dropWhile_eq_nil_iff.1 h2
    rcases List.mem_append.1
        ((List.takeWhile_append_dropWhile pyIsSpace s) ▸ hx : x ∈ _) with ht | hd
    · exact List.mem_takeWhile_imp ht
    · exact h3 x (List.mem_reverse.2 hd)
  rw [hall c hc] at hw
  exact Bool.noConfusion hw

/-- A formatted display time is never empty: it contains the date dash. -/
theorem strftimeDisplay_ne_nil (t : PyDatetime) : strftimeDisplay t ≠ [] := by
  unfold strftimeDisplay
  refine pyStrip_ne_nil_of_mem (c := '-') ?_ (by decide)
  simp

/-- A well-formed match yields a non-empty summary. -/
theorem wellFormed_summary_ne_nil {t : Str × Str × Str}
    (h : wellFormedTripleB t = true) : (mkArticle t.1 t.2.1 t.2.2).summary ≠ [] := by
  unfold wellFormedTripleB at h
  simp only [Bool.and_eq_true] at h
  obtain ⟨⟨-, h3⟩, -⟩ := h
  rw [mkArticle_summary]
  cases hg : h4Content t.2.2 with
  | none => rw [hg] at h3; exact Bool.noConfusion h3
  | some g =>
    rw [hg] at h3
    exact of_decide_eq_true h3

/-- A well-formed match yields a non-empty stage. -/
theorem wellFormed_stage_ne_nil {t : Str × Str × Str}
    (h : wellFormedTripleB t = true) : (mkArticle t.1 t.2.1 t.2.2).stage ≠ [] := by
  unfold wellFormedTripleB at h
  simp only [Bool.and_eq_true] at h
  obtain ⟨-, h4⟩ := h
  rw [mkArticle_stage]
  cases hg : labeledCapture (str "<strong>Stage:</strong>") t.2.2 with
  | none => rw [hg] at h4; exact Bool.noConfusion h4
  | some g =>
    rw [hg] at h4
    exact of_decide_eq_true h4

/-- A well-formed match yields a non-empty display time. -/
theorem wellFormed_time_display_ne_nil {t : Str × Str × Str}
    (h : wellFormedTripleB t = true) : (mkArticle t.1 t.2.1 t.2.2).time_display ≠ [] := by
  unfold wellFormedTripleB at h
  simp only [Bool.and_eq_true] at h
  obtain ⟨⟨⟨-, h2⟩, -⟩, -⟩ := h
  rw [mkArticle_time_display]
  cases hp : _parse_iso t.2.1 with
  | none => exact of_decide_eq_true h2
  | some d => exact strftimeDisplay_ne_nil d

/-! ## Claims -/

/-- C1 counterexample: with 23 `complete` and 17 `error` entries the code
renders `57%` — `(23 / 40) * 100` is the double `57.49999999999999289...`,
which rounds to 57 — while the claim's exact `round(100 * 23 / 40)` =
`round(57.5)` = 58 would render `58%`. -/
theorem C1_success_rate_counterexample :
    ((artsTwentyThreeSeventeen.filter fun a => a.status = str "complete").length = 23
        ∧ (artsTwentyThreeSeventeen.filter fun a => a.status = str "error").length = 17)
      ∧ successRateOf artsTwentyThreeSeventeen = str "57%"
      ∧ claimSuccessRate 23 17 = str "58%"
      ∧ successRateOf artsTwentyThreeSeventeen ≠ claimSuccessRate 23 17 := by
  exact ⟨⟨by decide, by decide⟩, by decide, by decide, by decide⟩

/-- C1 amended: the rendered metric is `round((complete / total) * 100)`
evaluated in IEEE-754 double precision (which can differ by one from the
exact `round(100 * complete / (complete + error))` when double rounding
crosses a half-integer boundary, e.g. 23/17 renders `57%`, not `58%`);
`complete` and `error` count entries with exactly those statuses, every
other status is excluded from numerator and denominator, and when
`complete + error = 0` the rendered value is the literal `"N/A"`. -/
theorem C1_success_rate_amended (articles : List Article) :
    successRateOf articles
      = (if (articles.filter fun a => a.status = str "complete").length
            + (articles.filter fun a => a.status = str "error").length = 0
         then str "N/A"
         else natStr (pyRoundRatioTimes100
            (articles.filter fun a => a.status = str "complete").length
            ((articles.filter fun a => a.status = str "complete").length
              + (articles.filter fun a => a.status = str "error").length)) ++ ['%']) := by
  simp only [successRateOf, ne_eq, ite_not]

/-- C2: for a fragment whose article scan yields well-formed matches, the
extractor returns exactly one entry per match, in document order without
re-sorting (the entry at index `i` is built from the match at index `i`),
and for any record carrying these entries the values rendered as the
"latest" fields of its repository page — status class, summary, stage and
display time — equal the corresponding fields of the first returned entry. -/
theorem C2_extractor_order_and_latest (t0 : Str × Str × Str)
    (ts : List (Str × Str × Str)) (r : RepoRecord)
    (hr : r.articles = _extract_articles (t0 :: ts))
    (hwf : ∀ t ∈ t0 :: ts, wellFormedTripleB t = true) :
    (_extract_articles (t0 :: ts)).length = (t0 :: ts).length
      ∧ (∀ i : Nat, (_extract_articles (t0 :: ts))[i]?
          = ((t0 :: ts)[i]?).map fun t => mkArticle t.1 t.2.1 t.2.2)
      ∧ latestStatusOf r = (mkArticle t0.1 t0.2.1 t0.2.2).status
      ∧ latestSummaryValue r = (mkArticle t0.1 t0.2.1 t0.2.2).summary
      ∧ latestStageValue r = (mkArticle t0.1 t0.2.1 t0.2.2).stage
      ∧ latestTimeValue r = (mkArticle t0.1 t0.2.1 t0.2.2).time_display := by
  have ht0 : wellFormedTripleB t0 = true := hwf t0 (List.mem_cons_self _ _)
  have hhead : r.articles.head? = some (mkArticle t0.1 t0.2.1 t0.2.2) := by
    rw [hr]; rfl
  refine ⟨by simp [_extract_articles], ?_, ?_, ?_, ?_, ?_⟩
  · intro i
    exact List.getElem?_map _ _ _
  · simp only [latestStatusOf, hhead]
  · simp only [latestSummaryValue, latestSummaryOf, hhead]
    rw [strOr, if_neg (wellFormed_summary_ne_nil ht0)]
  · simp only [latestStageValue, latestStageOf, hhead]
    rw [strOr, if_neg (wellFormed_stage_ne_nil ht0)]
  · simp only [latestTimeValue, latestTimeOf, hhead]
    rw [strOr, if_neg (wellFormed_time_display_ne_nil ht0)]

/-- Witness for C2 on `fragEps`. -/
theorem C2_extractor_order_and_latest_witness :
    (_extract_articles [tripA, tripB]).length = 2
      ∧ (_extract_articles [tripA, tripB])[0]?
          = some (mkArticle tripA.1 tripA.2.1 tripA.2.2)
      ∧ latestStatusOf (_parse_update_file (str "updates-eps") fragEps) = str "complete"
      ∧ latestSummaryValue (_parse_update_file (str "updates-eps") fragEps) = str "Fix build"
      ∧ latestStageValue (_parse_update_file (str "updates-eps") fragEps) = str "deploy"
      ∧ latestTimeValue (_parse_update_file (str "updates-eps") fragEps)
          = str "2024-03-01 10:00 +0000" := by
  have h := C2_extractor_order_and_latest tripA [tripB]
    (_parse_update_file (str "updates-eps") fragEps) (by decide) (by decide)
  exact ⟨h.1, (h.2.1 0).trans (by decide), h.2.2.1.trans (by decide),
    h.2.2.2.1.trans (by decide), h.2.2.2.2.1.trans (by decide),
    h.2.2.2.2.2.trans (by decide)⟩

/-- C3: timestamps parse as ISO-8601 instants with a trailing `Z` accepted as
UTC shorthand — `2024-03-01T10:00:00Z` parses to an aware UTC instant and
displays as `2024-03-01 10:00 +0000`; a naive instant displays without the
offset component; any successfully parsed timestamp displays via
`strftime("%Y-%m-%d %H:%M %z")` stripped; an unparseable or empty timestamp
displays as its original raw text unchanged and gets the minimum sort key. -/
theorem C3_timestamp_parse_display (s b : Str) :
    _parse_iso (str "2024-03-01T10:00:00Z") = some ⟨2024, 3, 1, 10, 0, 0, some 0⟩
      ∧ (mkArticle s (str "2024-03-01T10:00:00Z") b).time_display
          = str "2024-03-01 10:00 +0000"
      ∧ (mkArticle s (str "2024-03-01T10:00:00") b).time_display
          = str "2024-03-01 10:00"
      ∧ (∀ tr d, _parse_iso tr = some d →
          (mkArticle s tr b).time_display = strftimeDisplay d)
      ∧ (∀ tr, _parse_iso tr = none →
          (mkArticle s tr b).time_display = tr
            ∧ (mkArticle s tr b).sort_key = datetimeMin) := by
  refine ⟨by decide, ?_, ?_, ?_, ?_⟩
  · rw [mkArticle_time_display]; decide
  · rw [mkArticle_time_display]; decide
  · intro tr d h; rw [mkArticle_time_display, h]
  · intro tr h
    exact ⟨by rw [mkArticle_time_display, h],
           by rw [mkArticle_sort_key, h, Option.getD_none]⟩

/-- Witness for C3 at the unparseable timestamp `yesterday`. -/
theorem C3_timestamp_parse_display_witness :
    (mkArticle (str "x") (str "2024-03-01T10:00:00Z") []).time_display
        = str "2024-03-01 10:00 +0000"
      ∧ (mkArticle (str "x") (str "yesterday") []).time_display = str "yesterday"
      ∧ (mkArticle (str "x") (str "yesterday") []).sort_key = datetimeMin :=
  ⟨(C3_timestamp_parse_display (str "x") []).2.1,
   ((C3_timestamp_parse_display (str "x") []).2.2.2.2 (str "yesterday") (by decide)).1,
   ((C3_timestamp_parse_display (str "x") []).2.2.2.2 (str "yesterday") (by decide)).2⟩

/-- C4: the claim describes the intended order (descending by latest parsed
timestamp, unparsable-latest repositories at the end, ties stable), and the
code honours it only when all sort keys are comparable. With one repository
whose latest timestamp is offset-aware (`2024-03-01T10:00:00Z`) and another
whose latest timestamp is unparseable (`yesterday`, giving the naive
`datetime.min` key), `updates.sort` compares an aware with a naive datetime
and raises `TypeError`, so the run aborts before writing anything instead of
sorting the unparsable repository to the end. -/
theorem C4_mixed_keys_abort :
    (_parse_update_file (str "updates-alpha") fragAlpha).sort_key
        = ⟨2024, 3, 1, 10, 0, 0, some 0⟩
      ∧ (_parse_update_file (str "updates-beta") fragBeta).sort_key = datetimeMin
      ∧ build_dashboard [(str "updates-alpha", fragAlpha), (str "updates-beta", fragBeta)]
          tmplDash tmplRepo = none := by
  exact ⟨by decide, by decide, by decide⟩

/-- C5: missing or malformed optional fields degrade to defaults instead of
aborting (the extractor is a total function): a body with no `<h4>` block
gives an empty summary, a body with no Stage / Notes label gives an empty
stage / notes, a blank status becomes `unknown`, and an unparseable
timestamp keeps its raw text as the display value. -/
theorem C5_optional_field_defaults (s tr b : Str) :
    (h4Content b = none → (mkArticle s tr b).summary = [])
      ∧ (labeledCapture (str "<strong>Stage:</strong>") b = none →
          (mkArticle s tr b).stage = [])
      ∧ (labeledCapture (str "<strong>Notes:</strong>") b = none →
          (mkArticle s tr b).notes = [])
      ∧ (pyStrip s = [] → (mkArticle s tr b).status = str "unknown")
      ∧ (_parse_iso tr = none → (mkArticle s tr b).time_display = tr) := by
  refine ⟨?_, ?_, ?_, ?_, ?_⟩
  · intro h; rw [mkArticle_summary, h]
  · intro h; rw [mkArticle_stage, h]
  · intro h; rw [mkArticle_notes, h]
  · intro h; rw [mkArticle_status, strOr, if_pos h]
  · intro h; rw [mkArticle_time_display, h]

/-- Witness for C5 on a body with none of the optional structure, a blank
status and an unparseable timestamp. -/
theorem C5_optional_field_defaults_witness :
    (mkArticle (str "   ") (str "nope") (str "<p>plain</p>")).summary = []
      ∧ (mkArticle (str "   ") (str "nope") (str "<p>plain</p>")).stage = []
      ∧ (mkArticle (str "   ") (str "nope") (str "<p>plain</p>")).notes = []
      ∧ (mkArticle (str "   ") (str "nope") (str "<p>plain</p>")).status = str "unknown"
      ∧ (mkArticle (str "   ") (str "nope") (str "<p>plain</p>")).time_display = str "nope" :=
  ⟨(C5_optional_field_defaults _ _ _).1 (by decide),
   (C5_optional_field_defaults _ _ _).2.1 (by decide),
   (C5_optional_field_defaults _ _ _).2.2.1 (by decide),
   (C5_optional_field_defaults _ _ _).2.2.2.1 (by decide),
   (C5_optional_field_defaults _ _ _).2.2.2.2 (by decide)⟩

/-- C6: given zero input files matching the pattern, the run succeeds, the
status table consists of exactly the one placeholder row (repo `-`, status
pill `Missing`, summary `No updates found`), and no per-repository files are
produced; the dashboard is still rendered from the template with that single
row, no history blocks, and the lone home rail entry. -/
theorem C6_empty_input_placeholder (template repoTemplate : Str) :
    build_dashboard [] template repoTemplate
      = some ⟨[missingRow], [], [railHome], [],
          renderDashboard template [missingRow] [] [railHome]⟩ := rfl

/-- C7 counterexample: the file `updates-.html` matches the glob pattern
`updates-*.html` (with `*` matching the empty string), its stem is
`updates-`, and with no section marker in its content the filename-derived
fallback `stem.replace("updates-", "")` is empty — so this RepoRecord has an
empty repo identifier, refuting the claimed invariant. The same happens for
any stem consisting only of `updates-` repetitions, e.g. the file
`updates-updates-.html`, since `str.replace` removes every occurrence. -/
theorem C7_repo_identifier_counterexample :
    (_parse_update_file (str "updates-") []).repo = []
      ∧ (_parse_update_file (str "updates-") []).agent = str "unknown"
      ∧ (_parse_update_file (str "updates-updates-") []).repo = [] := by
  exact ⟨by decide, by decide, by decide⟩

/-- C7 amended: every RepoRecord has a non-empty agent identifier (the
captured attribute is non-empty, and the fallback is `unknown`). When the
section marker matches, the repo identifier equals the captured attribute
and is always non-empty; otherwise it equals the filename-derived fallback
`stem.replace("updates-", "")` — which removes every occurrence of
`updates-` and can be empty, e.g. for files named `updates-.html` or
`updates-updates-.html` — and the repo identifier is non-empty whenever
that fallback value is non-empty. -/
theorem C7_identifiers_amended (stem raw : Str) :
    (_parse_update_file stem raw).agent ≠ []
      ∧ (∀ ra, sectionAttrsSearch (_extract_section raw) = some ra →
          (_parse_update_file stem raw).repo = ra.1 ∧ ra.1 ≠ [])
      ∧ (sectionAttrsSearch (_extract_section raw) = none →
          (_parse_update_file stem raw).repo = pyReplace (str "updates-") [] stem
            ∧ (pyReplace (str "updates-") [] stem ≠ [] →
                (_parse_update_file stem raw).repo ≠ [])) := by
  refine ⟨?_, ?_, ?_⟩
  · rw [parse_update_file_agent]
    cases h : sectionAttrsSearch (_extract_section raw) with
    | none => decide
    | some ra => exact (sectionAttrsSearch_ne_nil h).2
  · intro ra h
    rw [parse_update_file_repo, h]
    exact ⟨rfl, (sectionAttrsSearch_ne_nil h).1⟩
  · intro h
    have he : (_parse_update_file stem raw).repo = pyReplace (str "updates-") [] stem := by
      rw [parse_update_file_repo, h]
    exact ⟨he, fun hne => he ▸ hne⟩

/-- Witness for C7 on a file with no section marker and a non-degenerate
filename, and on a fragment whose marker is present. -/
theorem C7_identifiers_amended_witness :
    (_parse_update_file (str "updates-alpha") []).agent ≠ []
      ∧ (_parse_update_file (str "updates-alpha") []).repo
          = pyReplace (str "updates-") [] (str "updates-alpha")
      ∧ (_parse_update_file (str "updates-alpha") []).repo ≠ []
      ∧ (_parse_update_file (str "updates-alpha") fragAlpha).repo = str "alpha"
      ∧ str "alpha" ≠ [] :=
  ⟨(C7_identifiers_amended (str "updates-alpha") []).1,
   ((C7_identifiers_amended (str "updates-alpha") []).2.2 (by decide)).1,
   ((C7_identifiers_amended (str "updates-alpha") []).2.2 (by decide)).2 (by decide),
   ((C7_identifiers_amended (str "updates-alpha") fragAlpha).2.1
      (str "alpha", str "bot") (by decide)).1,
   ((C7_identifiers_amended (str "updates-alpha") fragAlpha).2.1
      (str "alpha", str "bot") (by decide)).2⟩

/-- C8 counterexample: for the identifier `repo-x` the produced filename is
`repo-x.html`, not `repo-` ++ identifier ++ `.html` = `repo-repo-x.html` as
the claim states for every identifier. -/
theorem C8_filename_counterexample :
    _repo_page_filename (str "repo-x") = str "repo-x.html"
      ∧ _repo_page_filename (str "repo-x") ≠ str "repo-" ++ str "repo-x" ++ str ".html" := by
  exact ⟨by decide, by decide⟩

/-- C8 amended: the per-repository filename is `repo-` ++ identifier ++
`.html` for every identifier that does not already start with `repo-`; an
identifier that does keeps its prefix, giving identifier ++ `.html`. -/
theorem C8_filename_amended (repo : Str) :
    (¬ (str "repo-").isPrefixOf repo →
        _repo_page_filename repo = str "repo-" ++ repo ++ str ".html")
      ∧ ((str "repo-").isPrefixOf repo →
        _repo_page_filename repo = repo ++ str ".html") := by
  constructor
  · intro h
    simp only [_repo_page_filename, if_neg h]
  · intro h
    simp only [_repo_page_filename, if_pos h]

/-- Witness for C8 at the identifier `alpha`. -/
theorem C8_filename_amended_witness :
    _repo_page_filename (str "alpha") = str "repo-" ++ str "alpha" ++ str ".html" :=
  (C8_filename_amended (str "alpha")).1 (by decide)

/-- C9: the transform is deterministic — two runs on equal inputs (update
files, dashboard template, repository template) produce equal outputs,
including every per-repository page. -/
theorem C9_deterministic (files₁ files₂ : List (Str × Str)) (t₁ t₂ rt₁ rt₂ : Str)
    (hf : files₁ = files₂) (ht : t₁ = t₂) (hrt : rt₁ = rt₂) :
    build_dashboard files₁ t₁ rt₁ = build_dashboard files₂ t₂ rt₂ := by
  subst hf; subst ht; subst hrt; rfl

/-- Witness for C9 at a concrete input. -/
theorem C9_deterministic_witness :
    build_dashboard [(str "updates-gamma", fragGamma)] tmplDash tmplRepo
      = build_dashboard [(str "updates-gamma", fragGamma)] tmplDash tmplRepo :=
  C9_deterministic _ _ _ _ _ _ rfl rfl rfl

/-- C10 counterexample: the timestamp `0001-01-01T00:00:00` parses
successfully, yet the entry's sort key is `datetime.min` (because the code
computes `parsed_time or datetime.min` and a parsed minimum is still the
minimum), so "sort key equals the minimum exactly when the timestamp did not
parse" fails in the right-to-left direction. -/
theorem C10_sort_key_counterexample :
    _parse_iso (str "0001-01-01T00:00:00") = some datetimeMin
      ∧ ¬ (_parse_iso (str "0001-01-01T00:00:00") = none)
      ∧ (mkArticle (str "complete") (str "0001-01-01T00:00:00") []).sort_key
          = datetimeMin := by
  exact ⟨by decide, by decide, by decide⟩

/-- C10 amended: every extracted entry has a non-empty status (whitespace-only
status attributes normalise to `unknown`), and the sort key is always a
concrete datetime — the parsed value when the timestamp parses, and the
minimum datetime when it does not (the minimum is also the key when the
timestamp itself parses to the minimum datetime, so key = minimum does not
imply a parse failure); sorting therefore never encounters an absent key. -/
theorem C10_entry_invariants_amended (s tr b : Str) :
    (mkArticle s tr b).status ≠ []
      ∧ (pyStrip s = [] → (mkArticle s tr b).status = str "unknown")
      ∧ (_parse_iso tr = none → (mkArticle s tr b).sort_key = datetimeMin)
      ∧ ∀ d, _parse_iso tr = some d → (mkArticle s tr b).sort_key = d := by
  refine ⟨?_, ?_, ?_, ?_⟩
  · rw [mkArticle_status, strOr]
    split
    · decide
    · assumption
  · intro h
    rw [mkArticle_status, strOr, if_pos h]
  · intro h
    rw [mkArticle_sort_key, h, Option.getD_none]
  · intro d h
    rw [mkArticle_sort_key, h, Option.getD_some]

/-- Witness for C10 at a whitespace status and an unparseable timestamp. -/
theorem C10_entry_invariants_amended_witness :
    (mkArticle (str "  ") (str "yesterday") []).status ≠ []
      ∧ (mkArticle (str "  ") (str "yesterday") []).status = str "unknown"
      ∧ (mkArticle (str "  ") (str "yesterday") []).sort_key = datetimeMin :=
  ⟨(C10_entry_invariants_amended _ _ _).1,
   (C10_entry_invariants_amended _ _ _).2.1 (by decide),
   (C10_entry_invariants_amended _ _ _).2.2.1 (by decide)⟩
